import Mathlib

/-!
Verification of the driver-attention monitoring core of this repository.

JavaScript numbers are modelled as rationals (ℚ); timestamps in
milliseconds as integers (ℤ) or naturals (ℕ).  Each definition is a
shallow embedding of one function or effect body of the source files:

* `DriverMonitor` — the simulation tick and audio-alert logic of
  DriverMonitorInteractive (both the extended copy and the webapp copy).
* `AlertSys` — the two AlertSystem components: the older score-threshold
  component and the newer one that also consumes fusion and inference
  payloads, including its `normalizeScore` helper.
* `FusionCore` — the signal-fusion formulas of the ml server, modelled
  from the spec because `fusion/signal_fusion.py` is not present in the
  sources (only the mlserver README documents it).
-/

namespace DriverMonitor

/-- Embedding of the clamp helper of DriverMonitorInteractive:
`(v, a, b) => Math.max(a, Math.min(b, v))`. -/
def clamp (v a b : ℚ) : ℚ := max a (min b v)

/-- Inputs of one simulation tick of the extended DriverMonitorInteractive:
previous attention, the random noise term, environment toggles, backend
prediction fields, and the sensor values already computed by the tick. -/
structure TickInput where
  attention : ℚ
  noise : ℚ
  nightDetected : Bool
  speed : ℚ
  inferenceDrowsyConf : Option ℚ
  fusionDrowsyScore : Option ℚ
  drowsyToggle : Bool
  vibration : Bool
  highway : Bool
  glasses : Bool
  newSteer : ℚ
  currentSpeed : ℚ
  lastSpeed : ℚ
  lastSteer : ℚ
  laneScore : ℚ
  micro : Bool
  backendScore : Option ℚ

/-- Test of an optional number against a strict lower bound, as JavaScript
evaluates `maybeUndefined > t` (undefined compares false). -/
def optGt (o : Option ℚ) (t : ℚ) : Bool :=
  match o with
  | some c => decide (t < c)
  | none => false

/-- Embedding of the newScore computation of the extended
DriverMonitorInteractive tick body: starts from the previous attention plus
noise, subtracts the night, drowsiness, vibration, highway, glasses,
steering, speed, sudden-delta, lane and microsleep penalties, then blends
with the backend fusion score when one is present. -/
def tickRawScore (i : TickInput) : ℚ :=
  let s0 := i.attention + i.noise
  let s1 := if i.nightDetected then s0 - (8 + (if i.speed > 80 then 4 else 0)) else s0
  let s2 :=
    if optGt i.inferenceDrowsyConf 0.6 then s1 - (i.inferenceDrowsyConf.getD 0) * 25
    else if optGt i.fusionDrowsyScore 0.5 then s1 - (i.fusionDrowsyScore.getD 0) * 20
    else if i.drowsyToggle then s1 - 15
    else s1
  let s3 := if i.vibration then s2 - (6 + (if i.speed > 60 then 3 else 0)) else s2
  let s4 := if i.highway && decide (i.speed > 60) then s3 - (3 + min 8 ((i.speed - 60) / 10)) else s3
  let s5 := if i.glasses then s4 - 2 else s4
  let s6 := s5 - (|i.newSteer| / 45) * 12
  let s7 := s6 - (min i.currentSpeed 140 / 140) * 12
  let speedDelta := |i.currentSpeed - i.lastSpeed|
  let s8 := if speedDelta > 8 then s7 - min 20 (speedDelta * 1.8) else s7
  let steerDelta := |i.newSteer - i.lastSteer|
  let s9 := if steerDelta > 10 then s8 - min 18 (steerDelta * 0.9) else s8
  let s10 := if i.laneScore > 0.05 then s9 - min 25 (i.laneScore * 100 * 0.18) else s9
  let s11 := if i.micro then s10 - 5 else s10
  match i.backendScore with
  | some b => clamp b 0 100 * 0.92 + s11 * 0.08
  | none => s11

/-- Embedding of the attention value stored by the extended tick:
`const clamped = clamp(newScore, 0, 100); setAttention(clamped)`. -/
def tickPublishedScore (i : TickInput) : ℚ := clamp (tickRawScore i) 0 100

/-- Inputs of one simulation tick of the webapp copy of
DriverMonitorInteractive. -/
structure WebTickInput where
  attention : ℚ
  noise : ℚ
  nightMode : Bool
  drowsiness : Bool
  potholes : Bool
  highway : Bool
  speed : ℚ
  newSteer : ℚ
  micro : Bool

/-- Embedding of the newScore computation of the webapp copy:
fixed penalties for night mode, drowsiness, potholes, fast highway
driving, large steering angle and microsleep events. -/
def webTickRawScore (i : WebTickInput) : ℚ :=
  let s0 := i.attention + i.noise
  let s1 := if i.nightMode then s0 - 4 else s0
  let s2 := if i.drowsiness then s1 - 12 else s1
  let s3 := if i.potholes then s2 - 6 else s2
  let s4 := if i.highway && decide (i.speed > 60) then s3 - 2 else s3
  let s5 := if |i.newSteer| > 15 then s4 - 2 else s4
  if i.micro then s5 - 5 else s5

/-- Embedding of the attention value stored by the webapp tick:
`setAttention(clamp(newScore, 0, 100))`. -/
def webTickPublishedScore (i : WebTickInput) : ℚ := clamp (webTickRawScore i) 0 100

theorem clamp_nonneg (v : ℚ) : 0 ≤ clamp v 0 100 := le_max_left 0 _

theorem clamp_le_hundred (v : ℚ) : clamp v 0 100 ≤ 100 :=
  max_le (by norm_num) (min_le_left 100 v)

/-- C1: whatever signal values and environment penalties a tick applies,
the attention score it stores is the raw tick score clamped into
[0, 100]; hence the published score always lies in [0, 100], in both
copies of DriverMonitorInteractive. -/
theorem published_score_in_range (i : TickInput) (w : WebTickInput) :
    tickPublishedScore i = clamp (tickRawScore i) 0 100 ∧
    0 ≤ tickPublishedScore i ∧ tickPublishedScore i ≤ 100 ∧
    webTickPublishedScore w = clamp (webTickRawScore w) 0 100 ∧
    0 ≤ webTickPublishedScore w ∧ webTickPublishedScore w ≤ 100 :=
  ⟨rfl, clamp_nonneg _, clamp_le_hundred _, rfl, clamp_nonneg _, clamp_le_hundred _⟩

end DriverMonitor

namespace AlertSys

/-- Value shapes an AlertSystem prop can carry at runtime: a number, a
string (recorded with the rational its parseFloat yields, or none when
parseFloat returns NaN), or any other value. -/
inductive JSValue where
  | num (q : ℚ)
  | str (parsed : Option ℚ)
  | other
deriving DecidableEq

/-- Math.round of JavaScript: halves round toward positive infinity. -/
def jsRound (q : ℚ) : ℤ := ⌊q + 1 / 2⌋

/-- Embedding of `normalizeScore` of the newer AlertSystem: numbers are
clamped into [0, 100] and rounded; strings are parsed and, when the parse
succeeds, clamped and rounded the same way; everything else maps to 0. -/
def normalizeScore : JSValue → ℤ
  | .num q => jsRound (max 0 (min 100 q))
  | .str (some n) => jsRound (max 0 (min 100 n))
  | .str none => 0
  | .other => 0

theorem jsRound_bounds {q : ℚ} (h0 : 0 ≤ q) (h1 : q ≤ 100) :
    0 ≤ jsRound q ∧ jsRound q ≤ 100 := by
  refine ⟨Int.le_floor.mpr (by push_cast; linarith), ?_⟩
  have h : q + 1 / 2 < ((101 : ℤ) : ℚ) := by push_cast; linarith
  have := Int.floor_lt.mpr h
  unfold jsRound
  omega

/-- C8: the ingestion normalizer is total and clamping: every input value,
numeric, string or otherwise, yields a score in [0, 100] with no error
path, and out-of-range numbers are clamped to the nearest bound. -/
theorem normalizeScore_in_range (v : JSValue) (q : ℚ) :
    (0 ≤ normalizeScore v ∧ normalizeScore v ≤ 100) ∧
    (100 < q → normalizeScore (.num q) = 100) ∧
    (q < 0 → normalizeScore (.num q) = 0) := by
  refine ⟨?_, fun h => ?_, fun h => ?_⟩
  · cases v with
    | num q =>
        exact jsRound_bounds (le_max_left 0 _)
          (max_le (by norm_num) (min_le_left 100 q))
    | str p =>
        cases p with
        | some n =>
            exact jsRound_bounds (le_max_left 0 _)
              (max_le (by norm_num) (min_le_left 100 n))
        | none => simp [normalizeScore]
    | other => simp [normalizeScore]
  · have hmin : min 100 q = 100 := min_eq_left (le_of_lt h)
    have hmax : max 0 (min 100 q) = 100 := by rw [hmin]; norm_num
    simp only [normalizeScore, hmax]
    unfold jsRound
    norm_num
  · have hmin : min 100 q = q := min_eq_right (by linarith)
    have hmax : max 0 (min 100 q) = 0 := by rw [hmin]; exact max_eq_left (le_of_lt h)
    simp only [normalizeScore, hmax]
    unfold jsRound
    norm_num

/-- Witness for C8 at concrete inputs: the number 150 is clamped to 100
and the number -5 to 0. -/
theorem normalizeScore_in_range_witness :
    normalizeScore (.num 150) = 100 ∧ normalizeScore (.num (-5)) = 0 :=
  ⟨(normalizeScore_in_range .other 150).2.1 (by norm_num),
   (normalizeScore_in_range .other (-5)).2.2 (by norm_num)⟩

/-- Alert channel of the AlertSystem components. -/
inductive Channel where
  | visual
  | voice
deriving DecidableEq

/-- Alert severity of the AlertSystem components. -/
inductive Severity where
  | low
  | medium
  | high
deriving DecidableEq

/-- Alert record of the AlertSystem components (id, timestamp and speed
fields carry no decision content and are omitted). -/
structure Alert where
  type : Channel
  severity : Severity
  message : String
deriving DecidableEq

/-- Embedding of getAlertMessage of the older AlertSystem. -/
def legacyGetAlertMessage (severity : Severity) (ty : Channel) : String :=
  match severity, ty with
  | .high, .visual => "CRITICAL: Pull over safely when possible"
  | .high, .voice => "Attention level critically low - find safe place to rest"
  | .medium, .visual => "WARNING: Attention decreasing"
  | .medium, .voice => "Please focus on the road ahead"
  | .low, .visual => "NOTICE: Monitor attention levels"
  | .low, .voice => "Stay alert and focused"

/-- Embedding of getAlertMessage of the newer AlertSystem. -/
def newGetAlertMessage (severity : Severity) (ty : Channel) : String :=
  match severity, ty with
  | .high, .visual => "CRITICAL: Pull over safely when possible"
  | .high, .voice => "Attention level critically low - find safe place to rest"
  | .medium, .visual => "WARNING: Attention decreasing"
  | .medium, .voice => "Please focus on the road ahead"
  | .low, .visual => "NOTICE: Monitor attention levels"
  | .low, .voice => "Stay alert and focused"

/-- Embedding of the alert effect of the older AlertSystem: below score
40 an alert is produced whose channel is visual above speed 50 and voice
otherwise, with severity high below 20, medium below 30 and low
otherwise. -/
def legacyAlert (currentScore speed : ℚ) : Option Alert :=
  if currentScore < 40 then
    let alertType := if speed > 50 then Channel.visual else Channel.voice
    let severity :=
      if currentScore < 20 then Severity.high
      else if currentScore < 30 then Severity.medium
      else Severity.low
    some ⟨alertType, severity, legacyGetAlertMessage severity alertType⟩
  else none

/-- Fusion payload fields the newer AlertSystem reads: the alert level
string, the alertness score value, and an optional recommendation. -/
structure FusionPayload where
  level : Option String
  score : JSValue
  recommendation : Option String

/-- One modality result of the inference payload: an optional confidence
and an optional label. -/
structure ModalityResult where
  confidence : Option ℚ
  label : Option String

/-- Inference payload fields the newer AlertSystem reads. -/
structure InferencePayload where
  drowsiness : Option ModalityResult
  distraction : Option ModalityResult
  voice : Option ModalityResult

/-- Embedding of the priority-1 fusion branch of the newer AlertSystem: a
voice high-severity alert when the fusion level is critical or the
normalized fusion score is below 20. -/
def fusionAlert (f : FusionPayload) : Option Alert :=
  if f.level = some "critical" ∨ normalizeScore f.score < 20 then
    some ⟨.voice, .high, f.recommendation.getD "Critical alert: attention severely reduced"⟩
  else none

/-- Embedding of the confidence-to-severity mapping used by every
inference branch of the newer AlertSystem. -/
def confSeverity (conf : ℚ) : Severity :=
  if conf > 0.85 then .high else if conf > 0.7 then .medium else .low

/-- Embedding of one inference branch of the newer AlertSystem: fires
when the modality result is present with a numeric confidence above
0.6. -/
def inferenceBranch (ch : Channel) (defaultMsg : String) :
    Option ModalityResult → Option Alert
  | some r =>
      match r.confidence with
      | some conf =>
          if conf > 0.6 then some ⟨ch, confSeverity conf, r.label.getD defaultMsg⟩ else none
      | none => none
  | none => none

/-- Embedding of the priority-2 inference chain of the newer AlertSystem:
drowsiness, then distraction (both visual alerts), then voice cues (a
voice alert). -/
def inferenceAlert (inf : InferencePayload) : Option Alert :=
  match inferenceBranch .visual "Drowsiness detected" inf.drowsiness with
  | some a => some a
  | none =>
    match inferenceBranch .visual "Distraction detected" inf.distraction with
    | some a => some a
    | none => inferenceBranch .voice "Vocal fatigue cues detected" inf.voice

/-- Embedding of the fallback threshold branch of the newer AlertSystem,
reached when neither the fusion nor the inference branch fires. -/
def fallbackAlert (currentScore speed : ℚ) : Option Alert :=
  if currentScore < 40 then
    let alertType := if speed > 50 then Channel.visual else Channel.voice
    let severity :=
      if currentScore < 20 then Severity.high
      else if currentScore < 30 then Severity.medium
      else Severity.low
    some ⟨alertType, severity, newGetAlertMessage severity alertType⟩
  else none

/-- Embedding of the alert effect of the newer AlertSystem: the fusion
branch when a fusion payload is present, else the inference chain when an
inference payload is present, else the score-threshold fallback. -/
def newAlert (fusion : Option FusionPayload) (inference : Option InferencePayload)
    (currentScore speed : ℚ) : Option Alert :=
  match fusion.bind fusionAlert with
  | some a => some a
  | none =>
    match inference.bind inferenceAlert with
    | some a => some a
    | none => fallbackAlert currentScore speed

theorem getAlertMessage_agree (s : Severity) (c : Channel) :
    newGetAlertMessage s c = legacyGetAlertMessage s c := by
  cases s <;> cases c <;> rfl

/-- C10: with no fusion payload and no inference payload the newer
AlertSystem takes its fallback branch and agrees with the older
AlertSystem on every (score, speed) pair: same trigger condition, same
channel, same severity, same message. -/
theorem newAlert_refines_legacy (score speed : ℚ) :
    newAlert none none score speed = legacyAlert score speed := by
  show fallbackAlert score speed = legacyAlert score speed
  unfold fallbackAlert legacyAlert
  simp only [getAlertMessage_agree]

/-- C4: for every alert triggered by a low score on the threshold path,
the channel is visual exactly when speed exceeds 50, in both AlertSystem
components. -/
theorem alert_channel_speed_gated (score speed : ℚ) (h : score < 40) :
    (legacyAlert score speed).map Alert.type
      = some (if speed > 50 then Channel.visual else Channel.voice) ∧
    (newAlert none none score speed).map Alert.type
      = some (if speed > 50 then Channel.visual else Channel.voice) := by
  constructor
  · simp [legacyAlert, if_pos h]
  · rw [newAlert_refines_legacy]
    simp [legacyAlert, if_pos h]

/-- Witness for C4 at a concrete input: score 30 at speed 60 gives a
visual alert, score 30 at speed 40 a voice alert, in both components. -/
theorem alert_channel_speed_gated_witness :
    ((legacyAlert 30 60).map Alert.type = some Channel.visual ∧
      (newAlert none none 30 60).map Alert.type = some Channel.visual) ∧
    ((legacyAlert 30 40).map Alert.type = some Channel.voice ∧
      (newAlert none none 30 40).map Alert.type = some Channel.voice) := by
  constructor
  · have h := alert_channel_speed_gated 30 60 (by norm_num)
    simpa using h
  · have h := alert_channel_speed_gated 30 40 (by norm_num)
    simpa using h

/-- Alert level the threshold classifier assigns to a score: the severity
of the alert the legacy threshold path produces, or none when no alert
triggers (at 40 and above).  The channel argument does not influence
severity, so speed 0 is passed. -/
def levelOf (score : ℚ) : Option Severity :=
  (legacyAlert score 0).map Alert.severity

/-- Number of level transitions along a score sequence: adjacent pairs
classified at different levels. -/
def countTransitions : List ℚ → ℕ
  | a :: b :: rest =>
      (if levelOf a = levelOf b then 0 else 1) + countTransitions (b :: rest)
  | _ => 0

/-- Score sequence of n boundary crossings alternating between a and b,
starting at a. -/
def oscillation (a b : ℚ) : ℕ → List ℚ
  | 0 => [a]
  | n + 1 => a :: oscillation b a n

/-- C3 counterexample: the scores 29, 31, 29 oscillate within a band of
±2 around the 30 boundary (hysteresis margin 4, crossing by margin over
2), yet the classifier performs two level transitions, not at most
one. -/
theorem classifier_not_hysteretic : 1 < countTransitions [29, 31, 29] := by
  have h29 : levelOf 29 = some Severity.medium := by
    norm_num [levelOf, legacyAlert]
  have h31 : levelOf 31 = some Severity.low := by
    norm_num [levelOf, legacyAlert]
  simp [countTransitions, h29, h31]

theorem countTransitions_oscillation :
    ∀ (n : ℕ) (a b : ℚ), levelOf a ≠ levelOf b →
      countTransitions (oscillation a b n) = n := by
  intro n
  induction n with
  | zero => intro a b _; rfl
  | succ m ih =>
      intro a b h
      cases m with
      | zero => simp [oscillation, countTransitions, h]
      | succ k =>
          have hlist : oscillation a b (k + 2) = a :: b :: oscillation a b k := rfl
          rw [hlist]
          have hcount : countTransitions (a :: b :: oscillation a b k)
              = 1 + countTransitions (b :: oscillation a b k) := by
            simp [countTransitions, h]
          rw [hcount]
          have hrest : b :: oscillation a b k = oscillation b a (k + 1) := rfl
          rw [hrest, ih b a (Ne.symm h)]
          omega

/-- C3 amended: the threshold classifier is memoryless, with no
hysteresis margin: whenever two scores sit on opposite sides of the 30
severity boundary (one in [20, 30), one in [30, 40)), an oscillating
sequence crossing the boundary n times causes exactly n level
transitions, one per crossing. -/
theorem classifier_transitions_every_crossing (a b : ℚ) (n : ℕ)
    (ha1 : 20 ≤ a) (ha2 : a < 30) (hb1 : 30 ≤ b) (hb2 : b < 40) :
    countTransitions (oscillation a b n) = n := by
  have hla : levelOf a = some Severity.medium := by
    have h40 : a < 40 := by linarith
    have h20 : ¬a < 20 := not_lt.mpr ha1
    simp [levelOf, legacyAlert, h40, h20, ha2]
  have hlb : levelOf b = some Severity.low := by
    have h20 : ¬b < 20 := by push_neg; linarith
    have h30 : ¬b < 30 := not_lt.mpr hb1
    simp [levelOf, legacyAlert, hb2, h20, h30]
  exact countTransitions_oscillation n a b (by rw [hla, hlb]; simp)

/-- Witness for the amended C3 at a concrete input: oscillating 29, 31,
29, 31, 29 (four crossings of the 30 boundary) causes four level
transitions. -/
theorem classifier_transitions_every_crossing_witness :
    countTransitions (oscillation 29 31 4) = 4 :=
  classifier_transitions_every_crossing 29 31 4 (by norm_num) (by norm_num)
    (by norm_num) (by norm_num)

end AlertSys

namespace DriverMonitor

/-- Audio mode selector of the extended DriverMonitorInteractive. -/
inductive AudioMode where
  | beep
  | voice
  | off
deriving DecidableEq

/-- Cooldown clocks of the audio-alert block: lastAlertRef (beep channel)
and lastSpeechRef (voice channel), in milliseconds. -/
structure AudioState where
  lastAlert : ℤ
  lastSpeech : ℤ
deriving DecidableEq

/-- Audio events the tick can emit: an oscillator beep with frequency and
duration, or a spoken message. -/
inductive AudioEvent where
  | beep (frequency : ℚ) (durationMs : ℕ)
  | speech (message : String)
deriving DecidableEq

/-- Embedding of the audio-alert block of the extended tick.  In beep
mode a beep fires when the clamped score is below 75 and more than 6000
milliseconds passed since lastAlert (1200 Hz for 400 ms below score 40,
else 880 Hz for 250 ms), and lastAlert is set to now.  In voice mode an
utterance fires when the clamped score is below 70 and more than 12000
milliseconds passed since lastSpeech, and lastSpeech is set to now. -/
def audioTick (mode : AudioMode) (clamped : ℚ) (now : ℤ) (s : AudioState) :
    Option AudioEvent × AudioState :=
  if mode = .beep ∧ clamped < 75 ∧ now - s.lastAlert > 6000 then
    (some (.beep (if clamped < 40 then 1200 else 880) (if clamped < 40 then 400 else 250)),
      ⟨now, s.lastSpeech⟩)
  else if mode = .voice ∧ clamped < 70 ∧ now - s.lastSpeech > 12000 then
    (some (.speech (if clamped < 40 then "Critical attention level. Pull over safely."
        else "Attention reduced. Stay focused.")),
      ⟨s.lastAlert, now⟩)
  else (none, s)

/-- C2 counterexample: a mild beep (score 74, 880 Hz) at time 0 starts
the 6 s beep cooldown; a strictly more severe trigger (score 10, which
would beep at 1200 Hz) at time 3000 falls inside the cooldown and is
suppressed rather than emitted, so escalation does not bypass the
cooldown. -/
theorem escalation_suppressed_by_cooldown :
    (audioTick .beep 74 0 ⟨-10000, -10000⟩).1 = some (.beep 880 250) ∧
    (audioTick .beep 10 3000 ⟨0, -10000⟩).1 = none := by
  constructor <;> decide

/-- C2 amended: the per-channel cooldown is unconditional: within the
beep channel 6 s window or the voice channel 12 s window no event is
emitted and the clocks are unchanged, whatever the severity of the new
score; when an event is emitted the channel clock is reset to the
emission time. -/
theorem cooldown_unconditional (clamped : ℚ) (now : ℤ) (s : AudioState) :
    (now - s.lastAlert ≤ 6000 → audioTick .beep clamped now s = (none, s)) ∧
    (now - s.lastSpeech ≤ 12000 → audioTick .voice clamped now s = (none, s)) ∧
    (∀ e s2, audioTick .beep clamped now s = (some e, s2) → s2.lastAlert = now) ∧
    (∀ e s2, audioTick .voice clamped now s = (some e, s2) → s2.lastSpeech = now) := by
  refine ⟨fun h => ?_, fun h => ?_, fun e s2 he => ?_, fun e s2 he => ?_⟩
  · simp [audioTick, not_lt.mpr h]
  · simp [audioTick, not_lt.mpr h]
  · unfold audioTick at he
    split at he
    · cases he; rfl
    · split at he
      · simp_all
      · simp_all
  · unfold audioTick at he
    split at he
    · simp_all
    · split at he
      · cases he; rfl
      · simp_all

/-- Witness for the amended C2 at concrete inputs: at time 3000 with both
clocks last reset at time 0, neither channel emits for the severe score
10, and a beep emitted at time 7000 resets lastAlert to 7000. -/
theorem cooldown_unconditional_witness :
    audioTick .beep 10 3000 ⟨0, 0⟩ = (none, ⟨0, 0⟩) ∧
    audioTick .voice 10 3000 ⟨0, 0⟩ = (none, ⟨0, 0⟩) ∧
    (audioTick .beep 10 7000 ⟨0, 0⟩).2.lastAlert = 7000 := by
  refine ⟨(cooldown_unconditional 10 3000 ⟨0, 0⟩).1 (by norm_num),
    (cooldown_unconditional 10 3000 ⟨0, 0⟩).2.1 (by norm_num), ?_⟩
  exact (cooldown_unconditional 10 7000 ⟨0, 0⟩).2.2.1 (.beep 1200 400) ⟨7000, 0⟩ (by decide)

/-- C5: two consecutive same-severity triggers on one channel within that
channel cooldown window produce exactly one event: the first fires and
resets the clock, the second is dropped.  Stated for the beep channel
(6 s cooldown) and the voice channel (12 s cooldown). -/
theorem same_severity_within_cooldown_once
    (s0 : AudioState) (t1 t2 : ℤ) (c1 c2 : ℚ)
    (hc1 : c1 < 75) (hc2 : c2 < 75)
    (hgap : t1 - s0.lastAlert > 6000) (hin : t2 - t1 ≤ 6000)
    (hsev : c1 < 40 ↔ c2 < 40)
    (v0 : AudioState) (u1 u2 : ℤ) (d1 d2 : ℚ)
    (hd1 : d1 < 70) (hd2 : d2 < 70)
    (hvgap : u1 - v0.lastSpeech > 12000) (hvin : u2 - u1 ≤ 12000)
    (hvsev : d1 < 40 ↔ d2 < 40) :
    ((audioTick .beep c1 t1 s0).1.isSome ∧
      (audioTick .beep c2 t2 (audioTick .beep c1 t1 s0).2).1 = none) ∧
    ((audioTick .voice d1 u1 v0).1.isSome ∧
      (audioTick .voice d2 u2 (audioTick .voice d1 u1 v0).2).1 = none) := by
  have hb : audioTick .beep c1 t1 s0
      = (some (.beep (if c1 < 40 then 1200 else 880) (if c1 < 40 then 400 else 250)),
          ⟨t1, s0.lastSpeech⟩) := by
    simp [audioTick, hc1, hgap]
  have hv : audioTick .voice d1 u1 v0
      = (some (.speech (if d1 < 40 then "Critical attention level. Pull over safely."
            else "Attention reduced. Stay focused.")),
          ⟨v0.lastAlert, u1⟩) := by
    simp [audioTick, hd1, hvgap]
  refine ⟨⟨?_, ?_⟩, ?_, ?_⟩
  · rw [hb]; rfl
  · rw [hb]
    simp [audioTick, not_lt.mpr hin]
  · rw [hv]; rfl
  · rw [hv]
    simp [audioTick, not_lt.mpr hvin]

/-- Witness for C5 at concrete inputs: beep triggers at scores 74 and 74
at times 7000 and 12000 (clock last reset at 0) emit exactly one beep;
voice triggers at scores 69 and 69 at times 13000 and 20000 emit exactly
one utterance. -/
theorem same_severity_within_cooldown_once_witness :
    ((audioTick .beep 74 7000 ⟨0, 0⟩).1.isSome ∧
      (audioTick .beep 74 12000 (audioTick .beep 74 7000 ⟨0, 0⟩).2).1 = none) ∧
    ((audioTick .voice 69 13000 ⟨0, 0⟩).1.isSome ∧
      (audioTick .voice 69 20000 (audioTick .voice 69 13000 ⟨0, 0⟩).2).1 = none) :=
  same_severity_within_cooldown_once ⟨0, 0⟩ 7000 12000 74 74 (by norm_num) (by norm_num)
    (by norm_num) (by norm_num) Iff.rfl ⟨0, 0⟩ 13000 20000 69 69 (by norm_num)
    (by norm_num) (by norm_num) (by norm_num) Iff.rfl

/-- One entry of the trend history of DriverMonitorInteractive:
timestamp (milliseconds), score, and the displayed seconds value. -/
structure TrendPoint where
  timestamp : ℕ
  score : ℚ
  time : ℕ
deriving DecidableEq

/-- Embedding of the trend logging of both DriverMonitorInteractive
copies: `setTrend(prev => [...prev.slice(-25), entry])` keeps the last 25
previous entries and appends the new one. -/
def trendUpdate (prev : List TrendPoint) (e : TrendPoint) : List TrendPoint :=
  prev.drop (prev.length - 25) ++ [e]

/-- Arrival order on trend entries: non-decreasing timestamps. -/
def TrendOrdered (l : List TrendPoint) : Prop :=
  List.Sorted (fun p q => p.timestamp ≤ q.timestamp) l

/-- C9: the retained trend history is a bounded FIFO buffer: every update
keeps at most 26 entries (the last 25 previous ones plus the new one),
the evicted entries are exactly the oldest ones (a prefix of the previous
history), and arrival order is preserved when the new entry is at least
as recent as every retained one. -/
theorem trend_bounded_fifo (prev : List TrendPoint) (e : TrendPoint) :
    (trendUpdate prev e).length ≤ 26 ∧
    prev.take (prev.length - 25) ++ trendUpdate prev e = prev ++ [e] ∧
    (TrendOrdered prev → (∀ p ∈ prev, p.timestamp ≤ e.timestamp) →
      TrendOrdered (trendUpdate prev e)) := by
  refine ⟨?_, ?_, fun hs hle => ?_⟩
  · simp only [trendUpdate, List.length_append, List.length_drop, List.length_singleton]
    omega
  · rw [trendUpdate, ← List.append_assoc, List.take_append_drop]
  · unfold TrendOrdered trendUpdate
    refine List.pairwise_append.mpr
      ⟨hs.sublist (List.drop_sublist _ _), List.sorted_singleton _, ?_⟩
    intro p hp q hq
    rw [List.mem_singleton] at hq
    subst hq
    exact hle p (List.mem_of_mem_drop hp)

/-- Witness for C9 at a concrete input: appending a newest entry to a
two-entry ordered history keeps the bound and the order. -/
theorem trend_bounded_fifo_witness :
    (trendUpdate [⟨1, 90, 1⟩, ⟨2, 80, 2⟩] ⟨3, 70, 3⟩).length ≤ 26 ∧
    TrendOrdered (trendUpdate [⟨1, 90, 1⟩, ⟨2, 80, 2⟩] ⟨3, 70, 3⟩) :=
  ⟨(trend_bounded_fifo [⟨1, 90, 1⟩, ⟨2, 80, 2⟩] ⟨3, 70, 3⟩).1,
    (trend_bounded_fifo [⟨1, 90, 1⟩, ⟨2, 80, 2⟩] ⟨3, 70, 3⟩).2.2
      (by unfold TrendOrdered; decide) (by decide)⟩

end DriverMonitor

namespace FusionCore

/-- Modelled from the spec: the default smoothing factor of the temporal
smoother of the fusion server.  The file fusion/signal_fusion.py is not
present in the sources; the mlserver README documents alpha = 0.3 and the
config field smoothing_factor with the same default. -/
def smoothingAlphaDefault : ℚ := 0.3

/-- Modelled from the spec: one invocation of the temporal smoother of
the fusion server (fusion/signal_fusion.py, absent from the sources).
With no previous smoothed value the raw score is returned unchanged and
seeds the memory; otherwise the output is
alpha * raw + (1 - alpha) * previous, which also becomes the new
memory. -/
def smoothStep (alpha raw : ℚ) : Option ℚ → ℚ × Option ℚ
  | none => (raw, some raw)
  | some prev =>
      (alpha * raw + (1 - alpha) * prev, some (alpha * raw + (1 - alpha) * prev))

/-- C6: the temporal smoother outputs
alpha * raw + (1 - alpha) * previous, the first invocation seeds the
memory with the raw score so the first output equals the first raw score,
and the default alpha is 0.3. -/
theorem smoother_formula_and_cold_start (alpha raw prev : ℚ) :
    (smoothStep alpha raw none).1 = raw ∧
    (smoothStep alpha raw none).2 = some raw ∧
    (smoothStep alpha raw (some prev)).1 = alpha * raw + (1 - alpha) * prev ∧
    smoothingAlphaDefault = 3 / 10 :=
  ⟨rfl, rfl, rfl, by norm_num [smoothingAlphaDefault]⟩

/-- Modelled from the spec: the weighted linear fusion of the fusion
server (fusion/signal_fusion.py, absent from the sources; the mlserver
README documents risk as the weighted sum of the drowsiness, distraction
and voice scores). -/
def fuseRisk (wd wdis wv sd sdis sv : ℚ) : ℚ := wd * sd + wdis * sdis + wv * sv

/-- Modelled from the spec: conversion of risk to the raw alertness
score, (1 - risk) * 100. -/
def rawScoreOfRisk (risk : ℚ) : ℚ := (1 - risk) * 100

/-- Alert levels of the fusion server. -/
inductive AlertLevel where
  | normal
  | mild
  | moderate
  | severe
deriving DecidableEq

/-- Modelled from the spec: the alert-level mapping of the fusion server
(mlserver README: normal at alertness 70 and above, mild at 40, moderate
at 20, severe below 20). -/
def levelOfAlertness (a : ℚ) : AlertLevel :=
  if a ≥ 70 then .normal
  else if a ≥ 40 then .mild
  else if a ≥ 20 then .moderate
  else .severe

/-- C7 counterexample: with signals 0.1, 0.05, 0.02 and weights 0.5, 0.3,
0.2 the weighted sum is 0.069, not the 0.083 the claim states, and the
raw score is 93.1, not 91.7. -/
theorem scenario_a_claimed_numbers_wrong :
    fuseRisk 0.5 0.3 0.2 0.1 0.05 0.02 ≠ 0.083 ∧
    rawScoreOfRisk (fuseRisk 0.5 0.3 0.2 0.1 0.05 0.02) ≠ 91.7 := by
  norm_num [fuseRisk, rawScoreOfRisk]

/-- C7 amended: scenario A (signals 0.1, 0.05, 0.02 with weights 0.5,
0.3, 0.2) yields risk 0.069, raw score 93.1, and level Normal. -/
theorem scenario_a_end_to_end :
    fuseRisk 0.5 0.3 0.2 0.1 0.05 0.02 = 0.069 ∧
    rawScoreOfRisk (fuseRisk 0.5 0.3 0.2 0.1 0.05 0.02) = 93.1 ∧
    levelOfAlertness (rawScoreOfRisk (fuseRisk 0.5 0.3 0.2 0.1 0.05 0.02)) = .normal := by
  refine ⟨by norm_num [fuseRisk], by norm_num [fuseRisk, rawScoreOfRisk], ?_⟩
  have h : rawScoreOfRisk (fuseRisk 0.5 0.3 0.2 0.1 0.05 0.02) = 93.1 := by
    norm_num [fuseRisk, rawScoreOfRisk]
  rw [h]
  norm_num [levelOfAlertness]

end FusionCore
